import Mathlib

/-!
# Student management API: connection manager and faculty routes

A shallow embedding of `src/config/database.js` (the retrying `connectDB` and the
`disconnected` handler), of the bootstrap call in `src/server.js`, and of the five
handlers of `src/routes/faculties.js`.

* The module-level variable `connectionRetries` is passed in explicitly and returned
  in the record of what one invocation did (`Run`).
* `setTimeout`, `console.*` and `mongoose.connect` are effects: every call made by an
  invocation is recorded, in program order, in that invocation's `Run`.
* The outcome of an awaited driver or model call is an `Except JsError _`.
* JavaScript numbers that are counters are natural numbers.
-/

namespace StudentApi

/-! ## Values shared by both modules -/

/-- A JavaScript `Error`; only its `message` is ever read. -/
structure JsError where
  message : String
  deriving DecidableEq, Repr

/-! ## `src/config/database.js` -/

/-- The module constant `MAX_RETRIES`. -/
def MAX_RETRIES : Nat := 3

/-- The value `mongoose.connect` resolves to; the code reads `conn.connection.host`. -/
structure Conn where
  host : String
  deriving DecidableEq, Repr

/-- The only callback ever handed to `setTimeout`: the arrow function `() => connectDB()`. -/
inductive Callback where
  | connectDB
  deriving DecidableEq, Repr

/-- One call `setTimeout(callback, delay)`, the delay in milliseconds. -/
structure Timer where
  callback : Callback
  delay : Nat
  deriving DecidableEq, Repr

/-- The console method used. -/
inductive LogLevel where
  | log
  | warn
  | error
  deriving DecidableEq, Repr

/-- One line written to the console. -/
structure LogLine where
  level : LogLevel
  text : String
  deriving DecidableEq, Repr

/-- The options object literal passed to `mongoose.connect`. -/
structure ConnectOptions where
  retryWrites : Bool
  w : String
  serverSelectionTimeoutMS : Nat
  deriving DecidableEq, Repr

/-- One call `mongoose.connect(uri, options)`. -/
structure ConnectCall where
  uri : String
  options : ConnectOptions
  deriving DecidableEq, Repr

/-- What an `async` function settles with that is not a rejection. -/
inductive Value where
  | handle (conn : Conn)
  | null
  | undefined
  deriving DecidableEq, Repr

/-- How an invocation ends: it returns a value (the promise fulfils) or throws
(the promise rejects). -/
inductive Completion where
  | returned (v : Value)
  | thrown (e : JsError)
  deriving DecidableEq, Repr

/-- Everything one invocation of a function of `database.js` did. -/
structure Run where
  completion : Completion
  connectionRetries : Nat
  timers : List Timer
  console : List LogLine
  connectCalls : List ConnectCall
  deriving DecidableEq, Repr

/-- The process environment: the value of a variable, if it is set. -/
abbrev Env := String → Option String

/-- The expression `process.env.MONGODB_URI || 'mongodb://localhost:27017/students'`:
an unset variable is `undefined` and an empty string is falsy. -/
def mongoUri (env : Env) : String :=
  match env "MONGODB_URI" with
  | some uri => if uri = "" then "mongodb://localhost:27017/students" else uri
  | none => "mongodb://localhost:27017/students"

/-- The options literal of lines 9 to 11. -/
def connectOptions : ConnectOptions :=
  { retryWrites := true, w := "majority", serverSelectionTimeoutMS := 5000 }

/-- The `try` block of `connectDB` (lines 8 to 15). Line 8 calls `mongoose.connect` with
the URI and the options, whatever the outcome of that call. When the awaited call
throws, the block ends there by throwing the same error, the counter untouched;
otherwise `conn` is logged, the counter is reset and `conn` returned. -/
def connectDB.tryBlock (env : Env) (attempt : Except JsError Conn) (connectionRetries : Nat) :
    Run :=
  match attempt with
  | .error e =>
    { completion := .thrown e
      connectionRetries := connectionRetries
      timers := []
      console := []
      connectCalls := [⟨mongoUri env, connectOptions⟩] }
  | .ok conn =>
    { completion := .returned (.handle conn)
      connectionRetries := 0
      timers := []
      console := [⟨.log, "MongoDB connected: " ++ conn.host⟩]
      connectCalls := [⟨mongoUri env, connectOptions⟩] }

/-- The `catch` block of `connectDB` (lines 17 to 23), entered with the counter as the
`try` block left it. It makes no driver call. -/
def connectDB.catchBlock (_error : JsError) (connectionRetries : Nat) : Run :=
  let connectionRetries := connectionRetries + 1
  if connectionRetries >= MAX_RETRIES then
    { completion := .returned .null
      connectionRetries := connectionRetries
      timers := []
      console := [⟨.error, "DB connection failed after retries"⟩]
      connectCalls := [] }
  else
    { completion := .returned .undefined
      connectionRetries := connectionRetries
      timers := [⟨.connectDB, 2000⟩]
      console := [⟨.warn, "Retrying connection... (" ++ toString connectionRetries ++ "/"
                    ++ toString MAX_RETRIES ++ ")"⟩]
      connectCalls := [] }

/-- The function `connectDB`: the `try` block runs; when it throws, the `catch` block
runs after it, on the counter the `try` block left, and the effects of both blocks
follow one another. `attempt` is the outcome of the awaited `mongoose.connect`. -/
def connectDB (env : Env) (attempt : Except JsError Conn) (connectionRetries : Nat) : Run :=
  let tried := connectDB.tryBlock env attempt connectionRetries
  match tried.completion with
  | .returned _ => tried
  | .thrown error =>
    let caught := connectDB.catchBlock error tried.connectionRetries
    { completion := caught.completion
      connectionRetries := caught.connectionRetries
      timers := tried.timers ++ caught.timers
      console := tried.console ++ caught.console
      connectCalls := tried.connectCalls ++ caught.connectCalls }

/-- The listener registered for `'disconnected'` (lines 27 to 32). -/
def onDisconnected (connectionRetries : Nat) : Run :=
  { completion := .returned .undefined
    connectionRetries := connectionRetries
    timers := if connectionRetries < MAX_RETRIES then [⟨.connectDB, 5000⟩] else []
    console := [⟨.log, "MongoDB disconnected!"⟩]
    connectCalls := [] }

/-! ## `src/server.js`, lines 23 to 26 -/

/-- The statement `connectDB().catch((err) => ...)`: the handler runs only when the
promise rejects, and then writes one error line. The result is `true` in its first
component exactly when the handler ran. -/
def bootConnect (env : Env) (attempt : Except JsError Conn) (connectionRetries : Nat) :
    Bool × Run :=
  let run := connectDB env attempt connectionRetries
  match run.completion with
  | .thrown err =>
    (true, { run with
      completion := .returned .undefined
      console := run.console ++ [⟨.error, "Failed to connect to database: " ++ err.message⟩] })
  | .returned _ => (false, run)

/-! ## Retry chains -/

/-- A run of consecutive failing attempts, one per error offered: the first by a direct
call of `connectDB`, each later one by firing the timer the attempt before it
registered. The chain stops as soon as an attempt registers no timer. The result lists
the attempts actually made. -/
def failureChain (env : Env) : List JsError → Nat → List Run
  | [], _ => []
  | e :: es, connectionRetries =>
    let run := connectDB env (.error e) connectionRetries
    run :: (match run.timers with
            | [] => []
            | _ :: _ => failureChain env es run.connectionRetries)

/-- Every timer registered along a chain, in order. -/
def scheduled (runs : List Run) : List Timer :=
  runs.flatMap Run.timers

/-- The counter after a chain that started from `start`. -/
def finalRetries (start : Nat) (runs : List Run) : Nat :=
  match runs.getLast? with
  | some run => run.connectionRetries
  | none => start

/-! ## The event loop around the connection manager -/

/-- An invocation of `connectDB` that has been requested and has not yet settled: the
direct call of `server.js`, or a timer registered with the given delay. -/
inductive Invocation where
  | direct
  | after (delay : Nat)
  deriving DecidableEq, Repr

/-- The state of the connection manager between events: the counter and the pending
invocations of `connectDB`, oldest registration first. -/
structure Loop where
  connectionRetries : Nat
  pending : List Invocation
  deriving DecidableEq, Repr

/-- What can happen next: the pending invocation at position `i` runs and its attempt
has the given outcome, or the driver emits `'disconnected'`. -/
inductive Event where
  | attempt (i : Nat) (outcome : Except JsError Conn)
  | disconnected

/-- The pending invocations a `Run` adds. -/
def registered (run : Run) : List Invocation :=
  run.timers.map fun t => Invocation.after t.delay

/-- One step of the event loop. An `attempt` is possible only at a position that holds
a pending invocation, which it consumes. -/
def step (env : Env) (s : Loop) : Event → Option Loop
  | .attempt i outcome =>
    if i < s.pending.length then
      let run := connectDB env outcome s.connectionRetries
      some { connectionRetries := run.connectionRetries
             pending := s.pending.eraseIdx i ++ registered run }
    else none
  | .disconnected =>
    let run := onDisconnected s.connectionRetries
    some { connectionRetries := run.connectionRetries
           pending := s.pending ++ registered run }

/-- Run a sequence of events; `none` when one of them is not possible. -/
def exec (env : Env) (s : Loop) : List Event → Option Loop
  | [] => some s
  | ev :: evs =>
    match step env s ev with
    | some s' => exec env s' evs
    | none => none

/-- The state at process start: counter 0, the call of `server.js` in flight. -/
def Loop.init : Loop :=
  { connectionRetries := 0, pending := [.direct] }

/-! ## `src/routes/faculties.js` -/

/-- A JavaScript value as it can reach a handler from a parsed request body or from
the model. Numbers are rationals (a parsed body holds no `NaN`); an object is the list
of its own properties. -/
inductive JVal where
  | undefined
  | null
  | bool (b : Bool)
  | num (q : ℚ)
  | str (s : String)
  | arr (items : List JVal)
  | obj (fields : List (String × JVal))

/-- JavaScript truthiness: `undefined`, `null`, `false`, `0` and the empty string are
falsy, everything else is truthy. -/
def JVal.truthy : JVal → Bool
  | .undefined => false
  | .null => false
  | .bool b => b
  | .num q => decide (q ≠ 0)
  | .str s => decide (s ≠ "")
  | .arr _ => true
  | .obj _ => true

/-- The operator `a || b` on values. -/
def JVal.or (a b : JVal) : JVal :=
  if a.truthy then a else b

/-- Reading the property `key` of a value that is neither `undefined` nor `null`: an
own property of an object, and `undefined` for every name the handlers use otherwise. -/
def JVal.prop (v : JVal) (key : String) : JVal :=
  match v with
  | .obj fields => (fields.lookup key).getD .undefined
  | _ => .undefined

/-- The value can be destructured: it is neither `undefined` nor `null`. -/
def JVal.destructurable : JVal → Bool
  | .undefined => false
  | .null => false
  | _ => true

/-- The expression `code?.toUpperCase()`: `undefined` for `undefined` and `null`, the
upper-cased string for a string, and a `TypeError` for any other value, which has no
callable `toUpperCase`. The built-in `String.prototype.toUpperCase` is `upper`. -/
def optionalToUpperCase (upper : String → String) : JVal → Except JsError JVal
  | .undefined => .ok .undefined
  | .null => .ok .undefined
  | .str s => .ok (.str (upper s))
  | _ => .error ⟨"code.toUpperCase is not a function"⟩

/-- The object literal handed to `new Faculty(...)` by `POST /`. -/
structure FacultyFields where
  name : JVal
  code : JVal
  dean : JVal
  budget : JVal
  numDepartments : JVal

/-- The update object handed to `findByIdAndUpdate` by `PUT /:id`. -/
structure FacultyUpdate where
  name : JVal
  code : JVal
  dean : JVal
  budget : JVal
  numDepartments : JVal
  isActive : JVal

/-- The options literal of `findByIdAndUpdate`; `returnNew` is the property `new`. -/
structure UpdateOptions where
  returnNew : Bool
  runValidators : Bool
  deriving DecidableEq, Repr

/-- The Mongoose model `Faculty` of `../models/Faculty`, which the handlers only call:
the outcome of each query, and of building and saving a document (`save`). A query
for one document yields the document or `null` (`none`). -/
structure FacultyModel where
  find : Except JsError (List JVal)
  findById : String → Except JsError (Option JVal)
  save : FacultyFields → Except JsError JVal
  findByIdAndUpdate : String → FacultyUpdate → UpdateOptions → Except JsError (Option JVal)
  findByIdAndDelete : String → Except JsError (Option JVal)

/-- An HTTP response: `res.status(status).json(body)`; `res.json(body)` alone has
status 200. -/
structure Response where
  status : Nat
  body : JVal

/-- The body `{ message: text }`. -/
def messageBody (text : String) : JVal :=
  .obj [("message", .str text)]

/-- How a handler ends: with the response it sent, or with an error that escaped it. -/
abbrev Handled := Except JsError Response

/-- The handler `router.get('/')`. -/
def getFaculties (Faculty : FacultyModel) : Handled :=
  match Faculty.find with
  | .ok faculties => .ok ⟨200, .arr faculties⟩
  | .error error => .ok ⟨500, messageBody error.message⟩

/-- The handler `router.get('/:id')`. -/
def getFaculty (Faculty : FacultyModel) (id : String) : Handled :=
  match Faculty.findById id with
  | .ok none => .ok ⟨404, messageBody "Faculty not found"⟩
  | .ok (some faculty) => .ok ⟨200, faculty⟩
  | .error error => .ok ⟨500, messageBody error.message⟩

/-- The object literal of lines 32 to 38 of `router.post('/')`, from the destructured
request body; a `TypeError` when the body cannot be destructured or `code` has no
`toUpperCase`. -/
def postFields (upper : String → String) (body : JVal) : Except JsError FacultyFields :=
  if body.destructurable then
    match optionalToUpperCase upper (body.prop "code") with
    | .ok code =>
      .ok { name := (body.prop "name").or (.str "New Faculty")
            code := code
            dean := body.prop "dean"
            budget := (body.prop "budget").or (.num 0)
            numDepartments := (body.prop "numDepartments").or (.num 0) }
    | .error e => .error e
  else .error ⟨"Cannot destructure property of req.body"⟩

/-- The handler `router.post('/')`. -/
def postFaculty (upper : String → String) (Faculty : FacultyModel) (body : JVal) : Handled :=
  match postFields upper body with
  | .ok fields =>
    match Faculty.save fields with
    | .ok saved => .ok ⟨201, saved⟩
    | .error error => .ok ⟨400, messageBody error.message⟩
  | .error error => .ok ⟨400, messageBody error.message⟩

/-- The update literal of line 53 of `router.put('/:id')`, from the destructured body. -/
def putFields (body : JVal) : FacultyUpdate :=
  { name := body.prop "name", code := body.prop "code", dean := body.prop "dean"
    budget := body.prop "budget", numDepartments := body.prop "numDepartments"
    isActive := body.prop "isActive" }

/-- The options literal of line 54. -/
def updateOptions : UpdateOptions :=
  { returnNew := true, runValidators := true }

/-- The handler `router.put('/:id')`. -/
def putFaculty (Faculty : FacultyModel) (id : String) (body : JVal) : Handled :=
  if body.destructurable then
    match Faculty.findByIdAndUpdate id (putFields body) updateOptions with
    | .ok none => .ok ⟨404, messageBody "Faculty not found"⟩
    | .ok (some faculty) => .ok ⟨200, faculty⟩
    | .error error => .ok ⟨500, messageBody error.message⟩
  else .ok ⟨500, messageBody "Cannot destructure property of req.body"⟩

/-- The handler `router.delete('/:id')`. -/
def deleteFaculty (Faculty : FacultyModel) (id : String) : Handled :=
  match Faculty.findByIdAndDelete id with
  | .ok none => .ok ⟨404, messageBody "Faculty not found"⟩
  | .ok (some _) => .ok ⟨200, messageBody "Faculty deleted"⟩
  | .error error => .ok ⟨500, messageBody error.message⟩

/-! ## Concrete inputs -/

/-- The environment in which `MONGODB_URI` is `mongodb://db.example:27017/school` and
nothing else is set. -/
def exampleEnv : Env := fun name =>
  if name = "MONGODB_URI" then some "mongodb://db.example:27017/school" else none

/-- The function `String.prototype.toUpperCase` on strings of ASCII characters, for
evaluating the handlers at concrete bodies. -/
def asciiUpper (s : String) : String :=
  ⟨s.data.map Char.toUpper⟩

/-- A model whose every operation fails with the given error, as when the database
cannot be reached. -/
def failingModel (e : JsError) : FacultyModel :=
  { find := .error e
    findById := fun _ => .error e
    save := fun _ => .error e
    findByIdAndUpdate := fun _ _ _ => .error e
    findByIdAndDelete := fun _ => .error e }

/-- A model over an empty collection whose `save` succeeds and yields the five fields
as the saved document. -/
def savingModel : FacultyModel :=
  { find := .ok []
    findById := fun _ => .ok none
    save := fun f => .ok (.obj [("name", f.name), ("code", f.code), ("dean", f.dean),
      ("budget", f.budget), ("numDepartments", f.numDepartments)])
    findByIdAndUpdate := fun _ _ _ => .ok none
    findByIdAndDelete := fun _ => .ok none }

/-! ## Properties of executions, as stated -/

/-- The property that exhaustion is terminal in every execution from process start:
once a failed attempt has left the counter at 3 or more, in every state reached later
no attempt of `connectDB` is possible and a `disconnected` event changes nothing. -/
def ExhaustionTerminal (env : Env) : Prop :=
  ∀ (before later : List Event) (i : Nat) (e : JsError) (s s' s'' : Loop),
    exec env Loop.init before = some s →
    step env s (.attempt i (.error e)) = some s' →
    3 ≤ s'.connectionRetries →
    exec env s' later = some s'' →
    (∀ j outcome, step env s'' (.attempt j outcome) = none) ∧
    step env s'' .disconnected = some s''

/-! ## The connection manager: single invocations -/

/-- A failing attempt is the driver call of the `try` block followed by the `catch`
block. -/
theorem connectDB_error (env : Env) (e : JsError) (c : Nat) :
    connectDB env (.error e) c
      = { connectDB.catchBlock e c with connectCalls := [⟨mongoUri env, connectOptions⟩] } := by
  unfold connectDB connectDB.tryBlock connectDB.catchBlock
  by_cases h : c + 1 ≥ MAX_RETRIES <;> simp [h]

/-- A failing attempt that leaves the counter at 3 or more registers no timer. -/
theorem connectDB_error_exhausted (env : Env) (e : JsError) (c : Nat)
    (h : 3 ≤ (connectDB env (.error e) c).connectionRetries) :
    (connectDB env (.error e) c).timers = [] := by
  rw [connectDB_error] at h ⊢
  unfold connectDB.catchBlock at h ⊢
  by_cases hc : c + 1 ≥ MAX_RETRIES
  · simp [hc]
  · simp only [hc, if_false] at h
    exact absurd h hc

/-- C3: for every prior retry count, an invocation of `connectDB` whose driver connect
succeeds leaves the retry count 0, returns the handle the driver produced and registers
no timer. -/
theorem connectDB_success_resets (env : Env) (conn : Conn) (c : Nat) :
    (connectDB env (.ok conn) c).connectionRetries = 0 ∧
    (connectDB env (.ok conn) c).completion = .returned (.handle conn) ∧
    (connectDB env (.ok conn) c).timers = [] :=
  ⟨rfl, rfl, rfl⟩

/-- C4: for every retry count `c`, an invocation of `connectDB` whose driver connect
fails sets the retry count to `c + 1`; when `c + 1 >= 3` it returns `null` and registers
no timer, and when `c + 1 < 3` it registers exactly one timer for `connectDB` with delay
2000 ms and returns `undefined`. -/
theorem connectDB_failure_step (env : Env) (e : JsError) (c : Nat) :
    (connectDB env (.error e) c).connectionRetries = c + 1 ∧
    (connectDB env (.error e) c).completion
      = (if 3 ≤ c + 1 then .returned .null else .returned .undefined) ∧
    (connectDB env (.error e) c).timers
      = (if 3 ≤ c + 1 then [] else [⟨.connectDB, 2000⟩]) := by
  rw [connectDB_error]
  unfold connectDB.catchBlock
  by_cases h : 3 ≤ c + 1
  · have h' : c + 1 ≥ MAX_RETRIES := h
    simp [h, h']
  · have h' : ¬ c + 1 ≥ MAX_RETRIES := h
    simp [h, h']

/-- C5: for every retry count `c`, the `disconnected` listener registers exactly one
timer for `connectDB` with delay 5000 ms when `c < 3` and none when `c >= 3`, and leaves
the retry count unchanged; at `c = 1` a reconnect after 5 s is registered, at `c = 3`
none. -/
theorem onDisconnected_schedule (c : Nat) :
    (onDisconnected c).timers = (if c < 3 then [⟨.connectDB, 5000⟩] else []) ∧
    (onDisconnected c).connectionRetries = c ∧
    (onDisconnected 1).timers = [⟨.connectDB, 5000⟩] ∧
    (onDisconnected 3).timers = [] :=
  ⟨rfl, rfl, rfl, rfl⟩

/-- C7: for every retry count and every driver outcome `connectDB` returns normally,
with the handle, `null` or `undefined`, and never throws, so the handler attached with
`.catch` in `server.js` does not run. -/
theorem connectDB_never_throws (env : Env) (attempt : Except JsError Conn) (c : Nat) :
    (∃ v, (connectDB env attempt c).completion = .returned v) ∧
    (∀ e, (connectDB env attempt c).completion ≠ .thrown e) ∧
    bootConnect env attempt c = (false, connectDB env attempt c) := by
  have hret : ∃ v, (connectDB env attempt c).completion = .returned v := by
    cases attempt with
    | ok conn => exact ⟨.handle conn, rfl⟩
    | error e =>
      rw [connectDB_error]
      unfold connectDB.catchBlock
      by_cases h : c + 1 ≥ MAX_RETRIES
      · exact ⟨.null, by simp [h]⟩
      · exact ⟨.undefined, by simp [h]⟩
  obtain ⟨v, hv⟩ := hret
  refine ⟨⟨v, hv⟩, ?_, ?_⟩
  · intro e he
    rw [hv] at he
    cases he
  · unfold bootConnect
    simp only [hv]

/-- C9: the URI `connectDB` passes to the driver is the value of `MONGODB_URI` when that
is set to a non-empty string, and `mongodb://localhost:27017/students` when it is
unset; this is the only driver call of the invocation. -/
theorem connectDB_uri (env : Env) (attempt : Except JsError Conn) (c : Nat) :
    (∀ uri, env "MONGODB_URI" = some uri → uri ≠ "" →
      (connectDB env attempt c).connectCalls = [⟨uri, connectOptions⟩]) ∧
    (env "MONGODB_URI" = none →
      (connectDB env attempt c).connectCalls
        = [⟨"mongodb://localhost:27017/students", connectOptions⟩]) := by
  have hcalls : (connectDB env attempt c).connectCalls = [⟨mongoUri env, connectOptions⟩] := by
    cases attempt with
    | ok conn => rfl
    | error e => rw [connectDB_error]
  constructor
  · intro uri hset hne
    rw [hcalls]
    simp [mongoUri, hset, hne]
  · intro hunset
    rw [hcalls]
    simp [mongoUri, hunset]

/-- C9 at concrete environments: one that sets the variable, and the empty one. -/
theorem connectDB_uri_witness :
    (connectDB exampleEnv (.error ⟨"ECONNREFUSED"⟩) 0).connectCalls
      = [⟨"mongodb://db.example:27017/school", connectOptions⟩] ∧
    (connectDB (fun _ => none) (.ok ⟨"localhost"⟩) 2).connectCalls
      = [⟨"mongodb://localhost:27017/students", connectOptions⟩] :=
  ⟨(connectDB_uri exampleEnv (.error ⟨"ECONNREFUSED"⟩) 0).1
      "mongodb://db.example:27017/school" (by simp [exampleEnv]) (by decide),
   (connectDB_uri (fun _ => none) (.ok ⟨"localhost"⟩) 2).2 rfl⟩

/-! ## Retry chains -/

/-- C1: starting from retry count 0, after a run of `N < 3` consecutive failed
attempts (the first a direct call, each later one the retry the failure before it
registered) all `N` attempts have been made, exactly `N` timers for `connectDB` have
been registered, each with delay 2000 ms, and the retry count is `N`. -/
theorem failures_below_max (env : Env) (errors : List JsError) (h : errors.length < 3) :
    (failureChain env errors 0).length = errors.length ∧
    scheduled (failureChain env errors 0)
      = List.replicate errors.length ⟨.connectDB, 2000⟩ ∧
    finalRetries 0 (failureChain env errors 0) = errors.length := by
  match errors, h with
  | [], _ => exact ⟨rfl, rfl, rfl⟩
  | [e1], _ => exact ⟨rfl, rfl, rfl⟩
  | [e1, e2], _ => exact ⟨rfl, rfl, rfl⟩
  | _ :: _ :: _ :: _, h => exact absurd h (by simp)

/-- C1 at two failures. -/
theorem failures_below_max_witness :
    [JsError.mk "ECONNREFUSED", JsError.mk "ETIMEDOUT"].length < 3 ∧
    (failureChain (fun _ => none) [⟨"ECONNREFUSED"⟩, ⟨"ETIMEDOUT"⟩] 0).length = 2 ∧
    scheduled (failureChain (fun _ => none) [⟨"ECONNREFUSED"⟩, ⟨"ETIMEDOUT"⟩] 0)
      = [⟨.connectDB, 2000⟩, ⟨.connectDB, 2000⟩] ∧
    finalRetries 0 (failureChain (fun _ => none) [⟨"ECONNREFUSED"⟩, ⟨"ETIMEDOUT"⟩] 0) = 2 :=
  ⟨by decide, failures_below_max (fun _ => none) [⟨"ECONNREFUSED"⟩, ⟨"ETIMEDOUT"⟩] (by decide)⟩

/-- C2: starting from retry count 0, when `N >= 3` consecutive failures are offered to
the retry chain, exactly three attempts are made; the first two each register one retry
(so no more than 3 retries are registered), the third returns `null` and registers
nothing, and no fourth attempt is made. -/
theorem failures_exhaust (env : Env) (errors : List JsError) (h : 3 ≤ errors.length) :
    ∃ first second third,
      failureChain env errors 0 = [first, second, third] ∧
      third.completion = .returned .null ∧
      third.timers = [] ∧
      third.connectionRetries = 3 ∧
      scheduled (failureChain env errors 0) = [⟨.connectDB, 2000⟩, ⟨.connectDB, 2000⟩] ∧
      (scheduled (failureChain env errors 0)).length ≤ 3 := by
  match errors, h with
  | e1 :: e2 :: e3 :: rest, _ =>
    exact ⟨connectDB env (.error e1) 0, connectDB env (.error e2) 1,
      connectDB env (.error e3) 2, rfl, rfl, rfl, rfl, rfl, Nat.le_succ 2⟩
  | [], h => simp at h
  | [_], h => simp at h
  | [_, _], h => simp at h

/-- C2 at five failures offered. -/
theorem failures_exhaust_witness :
    ∃ first second third,
      failureChain (fun _ => none) (List.replicate 5 ⟨"ECONNREFUSED"⟩) 0
        = [first, second, third] ∧
      third.completion = .returned .null ∧
      third.timers = [] ∧
      third.connectionRetries = 3 ∧
      scheduled (failureChain (fun _ => none) (List.replicate 5 ⟨"ECONNREFUSED"⟩) 0)
        = [⟨.connectDB, 2000⟩, ⟨.connectDB, 2000⟩] ∧
      (scheduled (failureChain (fun _ => none) (List.replicate 5 ⟨"ECONNREFUSED"⟩) 0)).length
        ≤ 3 :=
  failures_exhaust (fun _ => none) (List.replicate 5 ⟨"ECONNREFUSED"⟩) (by decide)

/-! ## Exhaustion in the event loop -/

/-- In a state with the counter at 3 or more and nothing pending, no attempt is
possible and a disconnection leaves the state as it is. -/
theorem step_exhausted_idle (env : Env) (s : Loop) (hmax : 3 ≤ s.connectionRetries)
    (hidle : s.pending = []) :
    (∀ j outcome, step env s (.attempt j outcome) = none) ∧
    step env s .disconnected = some s := by
  obtain ⟨c, pending⟩ := s
  simp only at hmax hidle
  subst hidle
  constructor
  · intro j outcome
    simp [step]
  · have hlt : ¬ c < MAX_RETRIES := Nat.not_lt.mpr hmax
    simp [step, onDisconnected, registered, hlt]

/-- From a state with the counter at 3 or more and nothing pending, every execution
consists of disconnections only and ends in the same state. -/
theorem exec_exhausted_idle (env : Env) (s : Loop) (hmax : 3 ≤ s.connectionRetries)
    (hidle : s.pending = []) (later : List Event) (s'' : Loop)
    (hlater : exec env s later = some s'') :
    s'' = s ∧ ∀ ev ∈ later, ev = Event.disconnected := by
  induction later with
  | nil =>
    simp only [exec, Option.some.injEq] at hlater
    exact ⟨hlater.symm, by simp⟩
  | cons ev evs ih =>
    have hstep := step_exhausted_idle env s hmax hidle
    cases ev with
    | attempt j outcome =>
      simp [exec, hstep.1 j outcome] at hlater
    | disconnected =>
      simp only [exec, hstep.2] at hlater
      obtain ⟨hs, hall⟩ := ih hlater
      exact ⟨hs, by simpa using hall⟩

/-- A non-empty execution splits into its first step and the rest. -/
theorem exec_cons (env : Env) (s : Loop) (ev : Event) (evs : List Event) (s'' : Loop)
    (h : exec env s (ev :: evs) = some s'') :
    ∃ s', step env s ev = some s' ∧ exec env s' evs = some s'' := by
  simp only [exec] at h
  cases hstep : step env s ev with
  | none => simp [hstep] at h
  | some s' => exact ⟨s', rfl, by simpa [hstep] using h⟩

/-- While only attempts happen, at most one invocation is pending and one is pending
only below the maximum: an attempt preserves this. -/
theorem step_attempt_single (env : Env) (s s' : Loop) (i : Nat)
    (outcome : Except JsError Conn)
    (hinv : s.pending.length ≤ 1 ∧ (s.pending ≠ [] → s.connectionRetries < 3))
    (hstep : step env s (.attempt i outcome) = some s') :
    s'.pending.length ≤ 1 ∧ (s'.pending ≠ [] → s'.connectionRetries < 3) := by
  obtain ⟨c, pending⟩ := s
  simp only at hinv
  simp only [step] at hstep
  split at hstep
  · rename_i hi
    simp only [Option.some.injEq] at hstep
    subst hstep
    have hone : pending.length = 1 := by omega
    have herase : pending.eraseIdx i = [] := by
      match pending, hone with
      | [x], _ =>
        have hi0 : i = 0 := by simpa using hi
        subst hi0
        rfl
    cases outcome with
    | ok conn => simp [herase, connectDB, connectDB.tryBlock, registered]
    | error e =>
      rw [connectDB_error]
      unfold connectDB.catchBlock
      by_cases h : c + 1 ≥ MAX_RETRIES
      · simp [herase, h, registered]
      · have hlt : c + 1 < 3 := Nat.lt_of_not_le h
        simp [herase, h, registered, hlt]
  · cases hstep

/-- In the plain retry chain from process start, where no `disconnected` event
occurs, whenever the counter is at 3 or more nothing is pending. -/
theorem plain_chain_idle_at_exhaustion (env : Env) (events : List Event) (s : Loop)
    (hplain : ∀ ev ∈ events, ∃ i outcome, ev = Event.attempt i outcome)
    (hexec : exec env Loop.init events = some s) (hmax : 3 ≤ s.connectionRetries) :
    s.pending = [] := by
  have key : ∀ (evs : List Event) (s0 s1 : Loop),
      (∀ ev ∈ evs, ∃ i outcome, ev = Event.attempt i outcome) →
      (s0.pending.length ≤ 1 ∧ (s0.pending ≠ [] → s0.connectionRetries < 3)) →
      exec env s0 evs = some s1 →
      (s1.pending.length ≤ 1 ∧ (s1.pending ≠ [] → s1.connectionRetries < 3)) := by
    intro evs
    induction evs with
    | nil =>
      intro s0 s1 _ hinv h
      simp only [exec, Option.some.injEq] at h
      subst h
      exact hinv
    | cons ev evs ih =>
      intro s0 s1 hall hinv h
      obtain ⟨s', hstep, hrest⟩ := exec_cons env s0 ev evs s1 h
      obtain ⟨i, outcome, hev⟩ := hall ev (List.mem_cons_self _ _)
      subst hev
      exact ih s' s1 (fun ev hmem => hall ev (List.mem_cons_of_mem _ hmem))
        (step_attempt_single env s0 s' i outcome hinv hstep) hrest
  have hinv := key events Loop.init s hplain
    ⟨by simp [Loop.init], fun _ => by simp [Loop.init]⟩ hexec
  by_contra hne
  have := hinv.2 hne
  omega

/-- C6, refuted as stated: after a successful first connection two `disconnected`
events each register a reconnect; the two retry chains interleave, the third failure
leaves the counter at 3 while a 2000 ms retry of the other chain is still pending, and
that retry then runs as a fourth failing attempt and raises the counter to 4. -/
theorem exhaustion_not_terminal :
    exec (fun _ => none) Loop.init
        [.attempt 0 (.ok ⟨"localhost"⟩), .disconnected, .disconnected,
          .attempt 0 (.error ⟨"ECONNREFUSED"⟩), .attempt 0 (.error ⟨"ECONNREFUSED"⟩)]
      = some ⟨2, [.after 2000, .after 2000]⟩ ∧
    step (fun _ => none) ⟨2, [.after 2000, .after 2000]⟩ (.attempt 0 (.error ⟨"ECONNREFUSED"⟩))
      = some ⟨3, [.after 2000]⟩ ∧
    step (fun _ => none) ⟨3, [.after 2000]⟩ (.attempt 0 (.error ⟨"ECONNREFUSED"⟩))
      = some ⟨4, []⟩ ∧
    ¬ ExhaustionTerminal (fun _ => none) := by
  refine ⟨rfl, rfl, rfl, ?_⟩
  intro hterminal
  have h := hterminal
    [.attempt 0 (.ok ⟨"localhost"⟩), .disconnected, .disconnected,
      .attempt 0 (.error ⟨"ECONNREFUSED"⟩), .attempt 0 (.error ⟨"ECONNREFUSED"⟩)]
    [] 0 ⟨"ECONNREFUSED"⟩
    ⟨2, [.after 2000, .after 2000]⟩ ⟨3, [.after 2000]⟩ ⟨3, [.after 2000]⟩
    rfl rfl (Nat.le_refl 3) rfl
  have hnone := h.1 0 (.error ⟨"ECONNREFUSED"⟩)
  simp [step] at hnone

/-- C6, amended: in every execution, once a failed attempt has left the retry count at
3 or more and no other invocation of `connectDB` is pending, nothing is pending at all
and the state never changes again: no later step is an attempt of `connectDB` and
every later `disconnected` event registers nothing. The state before the failed
attempt is arbitrary, so this covers every state reached from process start. -/
theorem exhaustion_terminal_when_idle (env : Env) (later : List Event) (i : Nat)
    (e : JsError) (s s' s'' : Loop)
    (hfail : step env s (.attempt i (.error e)) = some s')
    (hmax : 3 ≤ s'.connectionRetries)
    (hothers : s.pending.eraseIdx i = [])
    (hlater : exec env s' later = some s'') :
    s'.pending = [] ∧
    s'' = s' ∧
    (∀ ev ∈ later, ev = Event.disconnected) ∧
    (∀ j outcome, step env s'' (.attempt j outcome) = none) ∧
    step env s'' .disconnected = some s'' := by
  have hidle : s'.pending = [] := by
    simp only [step] at hfail
    split at hfail
    · simp only [Option.some.injEq] at hfail
      subst hfail
      simp only at hmax
      simp [hothers, registered, connectDB_error_exhausted env e s.connectionRetries hmax]
    · cases hfail
  obtain ⟨hsame, honly⟩ := exec_exhausted_idle env s' hmax hidle later s'' hlater
  subst hsame
  exact ⟨hidle, rfl, honly, step_exhausted_idle env s'' hmax hidle⟩

/-- C6 amended, at the plain retry chain: two failures from process start leave one
retry pending; its failure is the third, nothing else is pending, and the two
disconnections that follow change nothing. -/
theorem exhaustion_terminal_when_idle_witness :
    exec (fun _ => none) Loop.init
        [.attempt 0 (.error ⟨"ECONNREFUSED"⟩), .attempt 0 (.error ⟨"ECONNREFUSED"⟩)]
      = some ⟨2, [.after 2000]⟩ ∧
    step (fun _ => none) ⟨2, [.after 2000]⟩ (.attempt 0 (.error ⟨"ECONNREFUSED"⟩))
      = some ⟨3, []⟩ ∧
    (⟨3, []⟩ : Loop).pending = [] ∧
    (⟨3, []⟩ : Loop) = ⟨3, []⟩ ∧
    (∀ ev ∈ [Event.disconnected, Event.disconnected], ev = Event.disconnected) ∧
    (∀ j outcome, step (fun _ => none) ⟨3, []⟩ (.attempt j outcome) = none) ∧
    step (fun _ => none) ⟨3, []⟩ .disconnected = some ⟨3, []⟩ :=
  ⟨rfl, rfl,
    exhaustion_terminal_when_idle (fun _ => none) [.disconnected, .disconnected] 0
      ⟨"ECONNREFUSED"⟩ ⟨2, [.after 2000]⟩ ⟨3, []⟩ ⟨3, []⟩ rfl (Nat.le_refl 3) rfl rfl⟩

/-! ## The faculty routes -/

/-- When the model operation a handler calls fails with an error, `GET /`, `GET /:id`,
`PUT /:id` and `DELETE /:id` respond with status 500 and `POST /` with status 400, each
carrying the error message; every handler sends a response and lets no error escape. -/
theorem handlers_on_store_failure (upper : String → String) (Faculty : FacultyModel)
    (id : String) (body : JVal) (e : JsError) :
    (Faculty.find = .error e → getFaculties Faculty = .ok ⟨500, messageBody e.message⟩) ∧
    (Faculty.findById id = .error e →
      getFaculty Faculty id = .ok ⟨500, messageBody e.message⟩) ∧
    (body.destructurable = true →
      Faculty.findByIdAndUpdate id (putFields body) updateOptions = .error e →
      putFaculty Faculty id body = .ok ⟨500, messageBody e.message⟩) ∧
    (Faculty.findByIdAndDelete id = .error e →
      deleteFaculty Faculty id = .ok ⟨500, messageBody e.message⟩) ∧
    (∀ fields, postFields upper body = .ok fields → Faculty.save fields = .error e →
      postFaculty upper Faculty body = .ok ⟨400, messageBody e.message⟩) ∧
    (∃ r, getFaculties Faculty = .ok r) ∧ (∃ r, getFaculty Faculty id = .ok r) ∧
    (∃ r, postFaculty upper Faculty body = .ok r) ∧
    (∃ r, putFaculty Faculty id body = .ok r) ∧ (∃ r, deleteFaculty Faculty id = .ok r) := by
  refine ⟨?_, ?_, ?_, ?_, ?_, ?_, ?_, ?_, ?_, ?_⟩
  · intro h
    simp [getFaculties, h]
  · intro h
    simp [getFaculty, h]
  · intro hb h
    simp [putFaculty, hb, h]
  · intro h
    simp [deleteFaculty, h]
  · intro fields hf h
    simp [postFaculty, hf, h]
  · unfold getFaculties
    cases Faculty.find <;> exact ⟨_, rfl⟩
  · unfold getFaculty
    rcases Faculty.findById id with _ | _ | _ <;> exact ⟨_, rfl⟩
  · unfold postFaculty
    cases postFields upper body with
    | error _ => exact ⟨_, rfl⟩
    | ok fields =>
      simp only
      cases Faculty.save fields <;> exact ⟨_, rfl⟩
  · unfold putFaculty
    by_cases hb : body.destructurable = true
    · rw [if_pos hb]
      rcases Faculty.findByIdAndUpdate id (putFields body) updateOptions with _ | _ | _ <;>
        exact ⟨_, rfl⟩
    · rw [if_neg hb]
      exact ⟨_, rfl⟩
  · unfold deleteFaculty
    rcases Faculty.findByIdAndDelete id with _ | _ | _ <;> exact ⟨_, rfl⟩

/-- C8, the code at the failing input: with every model operation failing with the
same error, `POST /` sends a response whose status is 400, outside the 500 class the
claim requires, while `GET /`, `GET /:id`, `PUT /:id` and `DELETE /:id` answer 500 for
that same failure. -/
theorem post_unavailable_is_400 :
    (∃ r, postFaculty asciiUpper (failingModel ⟨"buffering timed out"⟩)
        (.obj [("name", .str "Science")]) = .ok r ∧
      r.status = 400 ∧ ¬ (500 ≤ r.status ∧ r.status ≤ 599) ∧
      r.body = messageBody "buffering timed out") ∧
    getFaculties (failingModel ⟨"buffering timed out"⟩)
      = .ok ⟨500, messageBody "buffering timed out"⟩ ∧
    getFaculty (failingModel ⟨"buffering timed out"⟩) "65f0a1"
      = .ok ⟨500, messageBody "buffering timed out"⟩ ∧
    putFaculty (failingModel ⟨"buffering timed out"⟩) "65f0a1" (.obj [("name", .str "Science")])
      = .ok ⟨500, messageBody "buffering timed out"⟩ ∧
    deleteFaculty (failingModel ⟨"buffering timed out"⟩) "65f0a1"
      = .ok ⟨500, messageBody "buffering timed out"⟩ :=
  ⟨⟨⟨400, messageBody "buffering timed out"⟩, rfl, rfl, by decide, rfl⟩, rfl, rfl, rfl, rfl⟩

/-- C10, refuted as stated: for the body with `code` equal to the number 5, `POST /`
constructs no document at all; nothing is saved and the response is 400 even though
the save would have succeeded. -/
theorem post_numeric_code_builds_nothing :
    (¬ ∃ fields, postFields asciiUpper
        (.obj [("name", .str "Science"), ("code", .num 5)]) = .ok fields) ∧
    postFaculty asciiUpper savingModel (.obj [("name", .str "Science"), ("code", .num 5)])
      = .ok ⟨400, messageBody "code.toUpperCase is not a function"⟩ := by
  have hfields : postFields asciiUpper (.obj [("name", .str "Science"), ("code", .num 5)])
      = .error ⟨"code.toUpperCase is not a function"⟩ := rfl
  refine ⟨?_, ?_⟩
  · rintro ⟨fields, h⟩
    rw [hfields] at h
    cases h
  · unfold postFaculty
    rw [hfields]

/-- C10, amended: for every request body that can be destructured, when `code` is
absent, `null` or a string, the document `POST /` constructs has `name` equal to the
body's `name` when truthy and `New Faculty` otherwise, `code` equal to the upper-cased
string or absent, `dean` unchanged, and `budget` and `numDepartments` equal to the body's
values when truthy and 0 otherwise; the response is 201 with the saved document when
the save succeeds and 400 with the error message when it fails. When `code` is any
other value, no document is constructed and the response is 400 with an error message. -/
theorem post_document (upper : String → String) (Faculty : FacultyModel) (body : JVal)
    (hbody : body.destructurable = true) :
    ((body.prop "code" = .undefined ∨ body.prop "code" = .null ∨
        ∃ s, body.prop "code" = .str s) →
      ∃ fields, postFields upper body = .ok fields ∧
        fields.name
          = (if (body.prop "name").truthy then body.prop "name" else .str "New Faculty") ∧
        fields.code
          = (match body.prop "code" with
             | .str s => .str (upper s)
             | _ => .undefined) ∧
        fields.dean = body.prop "dean" ∧
        fields.budget
          = (if (body.prop "budget").truthy then body.prop "budget" else .num 0) ∧
        fields.numDepartments
          = (if (body.prop "numDepartments").truthy then body.prop "numDepartments"
             else .num 0) ∧
        postFaculty upper Faculty body
          = (match Faculty.save fields with
             | .ok saved => .ok ⟨201, saved⟩
             | .error e => .ok ⟨400, messageBody e.message⟩)) ∧
    (¬ (body.prop "code" = .undefined ∨ body.prop "code" = .null ∨
        ∃ s, body.prop "code" = .str s) →
      (∃ e, postFields upper body = .error e) ∧
      ∃ text, postFaculty upper Faculty body = .ok ⟨400, messageBody text⟩) := by
  constructor
  · intro hcode
    have hup : optionalToUpperCase upper (body.prop "code")
        = .ok (match body.prop "code" with
               | .str s => .str (upper s)
               | _ => .undefined) := by
      rcases hcode with h | h | ⟨s, h⟩ <;> rw [h] <;> rfl
    have hfields : postFields upper body = .ok
        { name := (body.prop "name").or (.str "New Faculty")
          code := (match body.prop "code" with
                   | .str s => .str (upper s)
                   | _ => .undefined)
          dean := body.prop "dean"
          budget := (body.prop "budget").or (.num 0)
          numDepartments := (body.prop "numDepartments").or (.num 0) } := by
      simp only [postFields, hbody, if_true, hup]
    refine ⟨_, hfields, rfl, rfl, rfl, rfl, rfl, ?_⟩
    simp only [postFaculty, hfields]
  · intro hcode
    have hup : ∃ e, optionalToUpperCase upper (body.prop "code") = .error e := by
      cases h : body.prop "code" with
      | undefined => exact absurd (Or.inl h) hcode
      | null => exact absurd (Or.inr (Or.inl h)) hcode
      | str s => exact absurd (Or.inr (Or.inr ⟨s, h⟩)) hcode
      | bool _ => exact ⟨_, rfl⟩
      | num _ => exact ⟨_, rfl⟩
      | arr _ => exact ⟨_, rfl⟩
      | obj _ => exact ⟨_, rfl⟩
    obtain ⟨e, he⟩ := hup
    refine ⟨⟨e, ?_⟩, ⟨e.message, ?_⟩⟩
    · simp only [postFields, hbody, if_true, he]
    · simp only [postFaculty, postFields, hbody, if_true, he]

/-- C10 amended, at a body with an empty name, a lower-case code and a zero budget:
the name becomes `New Faculty`, the code is upper-cased, the budget is 0, and the
response is 201 with the saved document. -/
theorem post_document_witness :
    ∃ fields,
      postFields asciiUpper
        (.obj [("name", .str ""), ("code", .str "sci"), ("budget", .num 0)]) = .ok fields ∧
      fields.name = .str "New Faculty" ∧
      fields.code = .str "SCI" ∧
      fields.dean = .undefined ∧
      fields.budget = .num 0 ∧
      fields.numDepartments = .num 0 ∧
      postFaculty asciiUpper savingModel
          (.obj [("name", .str ""), ("code", .str "sci"), ("budget", .num 0)])
        = .ok ⟨201, .obj [("name", .str "New Faculty"), ("code", .str "SCI"),
            ("dean", .undefined), ("budget", .num 0), ("numDepartments", .num 0)]⟩ := by
  obtain ⟨fields, hfields, hname, hcode, hdean, hbudget, hnum, hresp⟩ :=
    (post_document asciiUpper savingModel
      (.obj [("name", .str ""), ("code", .str "sci"), ("budget", .num 0)]) rfl).1
      (Or.inr (Or.inr ⟨"sci", rfl⟩))
  have hupper : asciiUpper "sci" = "SCI" := rfl
  have hn : fields.name = .str "New Faculty" := by
    rw [hname]; simp [JVal.prop, JVal.truthy, List.lookup]
  have hc : fields.code = .str "SCI" := by
    rw [hcode]; simp [JVal.prop, List.lookup, hupper]
  have hd : fields.dean = .undefined := by
    rw [hdean]; simp [JVal.prop, List.lookup]
  have hb : fields.budget = .num 0 := by
    rw [hbudget]; simp [JVal.prop, JVal.truthy, List.lookup]
  have hm : fields.numDepartments = .num 0 := by
    rw [hnum]; simp [JVal.prop, JVal.truthy, List.lookup]
  refine ⟨fields, hfields, hn, hc, hd, hb, hm, ?_⟩
  rw [hresp]
  simp [savingModel, hn, hc, hd, hb, hm]

end StudentApi
